import Mathlib

/-!
Shallow embedding of the claude-monitor core (src/claude_monitor/hook.py and
src/claude_monitor/state.py) and proofs about its specification claims.

Modelling conventions:
* Timestamps produced by `_now_iso()` are modelled as opaque `String`s compared
  lexicographically by code point (`strLt`), exactly as Python compares `str`
  in `write_session`.  Parsed timestamps (`datetime.fromisoformat`) are
  modelled by an arbitrary partial parse function `String → Option Int`
  returning epoch seconds; `datetime.min.replace(tzinfo=utc)` is the constant
  `dtMin` (epoch seconds of 0001-01-01T00:00:00+00:00).
* The per-session on-disk JSON file is modelled as `Option SessionState`
  (`none` = file absent).  `write_session` returns the new disk contents.
* The filesystem probes are parameters: `hasGit` models `(d / ".git").exists()`
  on a directory given by its component list, and `fs` models reading a
  transcript JSONL file (`none` = missing or unreadable).
* Python `\w` and `str.strip()` are modelled over ASCII
  (`Char.isAlphanum || '_'` and `Char.isWhitespace`).
* Paths are modelled as normalized slash-separated component lists.
-/

namespace ClaudeMonitor

/-- Lexicographic strict comparison of code-point lists, the semantics of
Python string `<` used by `write_session`'s anti-regression check. -/
def strLtb : List Char → List Char → Bool
  | [], [] => false
  | [], _ :: _ => true
  | _ :: _, [] => false
  | a :: as, b :: bs =>
    if a.toNat < b.toNat then true
    else if b.toNat < a.toNat then false
    else strLtb as bs

/-- Python string strict less-than. -/
def strLt (a b : String) : Bool := strLtb a.data b.data

/-- SubagentState dataclass from state.py. -/
structure SubagentState where
  agent_id : String
  agent_type : String := ""
  status : String := "running"
  last_updated : String := ""
deriving DecidableEq

/-- SessionState dataclass from state.py. -/
structure SessionState where
  session_id : String
  cwd : String := ""
  project : String := ""
  status : String := "STARTING"
  tool_name : Option String := none
  permission_mode : String := ""
  model : String := ""
  topic : String := ""
  last_prompt : String := ""
  tool_count : Nat := 0
  started_at : String := ""
  last_updated : String := ""
  subagents : List SubagentState := []
deriving DecidableEq

/-- The fields of an inbound hook notification consumed by handle_hook.
A missing string field is the empty string (the `data.get(k, "")` default);
`tool_name` keeps the `data.get("tool_name")` distinction between absent
(`none`) and present. -/
structure HookData where
  session_id : String := ""
  hook_event_name : String := ""
  cwd : String := ""
  tool_name : Option String := none
  permission_mode : String := ""
  model : String := ""
  prompt : String := ""
  transcript_path : String := ""
  notification_type : String := ""
  agent_id : String := ""
  agent_type : String := ""
deriving DecidableEq

/-- One line of a transcript JSONL file: either a line that fails JSON
decoding, or a decoded object with its `type` field and its
`message.content` field (`some s` when that field is a string, `none`
when it is of any other shape). -/
inductive TranscriptLine where
  | bad : TranscriptLine
  | entry (type : String) (content : Option String) : TranscriptLine
deriving DecidableEq

/-- ASCII restriction of Python regex `\w`. -/
def isWordChar (c : Char) : Bool := c.isAlphanum || c = '_'

/-- Consume the remaining word characters of a `\w+` run and then a literal
`>`;  fails if a non-word, non-`>` character (or the end) is hit first. -/
def wordRunGt : List Char → Option (List Char)
  | [] => none
  | '>' :: rest => some rest
  | c :: rest => if isWordChar c then wordRunGt rest else none

/-- Strip a literal character sequence from the front of the input. -/
def stripLit : List Char → List Char → Option (List Char)
  | [], s => some s
  | _ :: _, [] => none
  | c :: cs, d :: ds => if c = d then stripLit cs ds else none

/-- Match the opening tag of `_IDE_TAG_RE`, that is `<ide_\w+>`. -/
def matchIdeOpen (s : List Char) : Option (List Char) :=
  match stripLit [ '<', 'i', 'd', 'e', '_' ] s with
  | some (c :: rest) => if isWordChar c then wordRunGt rest else none
  | _ => none

/-- Match the closing tag of `_IDE_TAG_RE`, that is `</ide_\w+>`. -/
def matchIdeClose (s : List Char) : Option (List Char) :=
  match stripLit [ '<', '/', 'i', 'd', 'e', '_' ] s with
  | some (c :: rest) => if isWordChar c then wordRunGt rest else none
  | _ => none

/-- Match the opening tag of `_SYSTEM_TAG_RE`, `<system-reminder>`. -/
def matchSysOpen (s : List Char) : Option (List Char) :=
  stripLit "<system-reminder>".data s

/-- Match the closing tag of `_SYSTEM_TAG_RE`, `</system-reminder>`. -/
def matchSysClose (s : List Char) : Option (List Char) :=
  stripLit "</system-reminder>".data s

/-- The non-greedy `.*?` search: scan forward for the earliest position where
the closing-tag matcher succeeds, returning the remainder after the tag. -/
def findTagClose (mClose : List Char → Option (List Char)) : List Char → Option (List Char)
  | [] => mClose []
  | c :: t =>
    match mClose (c :: t) with
    | some r => some r
    | none => findTagClose mClose t

/-- One `re.sub(pattern, "", text)` pass: at each position, if the opening
tag matches and a closing tag occurs later, drop the whole span and resume
scanning after it; otherwise keep the character.  `fuel` bounds recursion
(each step consumes at least one character, so fuel = length suffices). -/
def subTagsAux (mOpen mClose : List Char → Option (List Char)) : Nat → List Char → List Char
  | 0, s => s
  | _ + 1, [] => []
  | fuel + 1, c :: t =>
    match mOpen (c :: t) with
    | some afterOpen =>
      match findTagClose mClose afterOpen with
      | some rest => subTagsAux mOpen mClose fuel rest
      | none => c :: subTagsAux mOpen mClose fuel t
    | none => c :: subTagsAux mOpen mClose fuel t

/-- `re.sub(pattern, "", text)` for one of the two tag patterns. -/
def subTags (mOpen mClose : List Char → Option (List Char)) (s : List Char) : List Char :=
  subTagsAux mOpen mClose s.length s

/-- ASCII model of Python `str.strip()`. -/
def trimChars (l : List Char) : List Char :=
  ((l.dropWhile Char.isWhitespace).reverse.dropWhile Char.isWhitespace).reverse

/-- `_clean_prompt` from hook.py: strip IDE context tags, then system
reminders, then surrounding whitespace. -/
def clean_prompt (s : String) : String :=
  String.mk (trimChars (subTags matchSysOpen matchSysClose (subTags matchIdeOpen matchIdeClose s.data)))

/-- The loop body of `_read_topic_from_transcript`: first user-authored
line whose string content cleans to something nonempty. -/
def firstUserTopic : List TranscriptLine → String
  | [] => ""
  | .bad :: rest => firstUserTopic rest
  | .entry ty content :: rest =>
    if ty = "user" then
      match content with
      | some c =>
        let cleaned := clean_prompt c
        if cleaned ≠ "" then cleaned else firstUserTopic rest
      | none => firstUserTopic rest
    else firstUserTopic rest

/-- `_read_topic_from_transcript` from hook.py.  `fs` returns `none` for a
missing or unreadable transcript file. -/
def read_topic_from_transcript (fs : String → Option (List TranscriptLine)) (transcript_path : String) : String :=
  if transcript_path = "" then ""
  else
    match fs transcript_path with
    | none => ""
    | some lines => firstUserTopic lines

/-- Split a slash-separated path into its nonempty components. -/
def splitChars (sep : Char) : List Char → List (List Char)
  | [] => [[]]
  | c :: rest =>
    let r := splitChars sep rest
    if c = sep then [] :: r
    else
      match r with
      | g :: gs => (c :: g) :: gs
      | [] => [[ c ]]

/-- Path components of a cwd string (normalized: empty components dropped). -/
def splitPath (s : String) : List String :=
  ((splitChars '/' s.data).map (fun l => String.mk l)).filter (fun c => c ≠ "")

/-- The `for d in [p, *p.parents]` walk of `_project_name`, over REVERSED
component lists (head = deepest directory name): return the name of the
nearest ancestor directory containing a `.git` entry. -/
def gitWalkRev (hasGit : List String → Bool) : List String → Option String
  | [] => if hasGit [] then some "" else none
  | c :: rest => if hasGit ((c :: rest).reverse) then some c else gitWalkRev hasGit rest

/-- `_project_name` from hook.py: name of the nearest ancestor with a
version-control marker, falling back to the last path component. -/
def project_name (hasGit : List String → Bool) (cwd : String) : String :=
  if cwd = "" then ""
  else
    let comps := splitPath cwd
    match gitWalkRev hasGit comps.reverse with
    | some n => n
    | none => comps.getLast?.getD ""

/-- EVENT_STATE_MAP from hook.py, with `dict.get` semantics: `none` stands
both for the explicit `None` entry ("Notification") and for a missing key. -/
def EVENT_STATE_MAP (event : String) : Option String :=
  if event = "SessionStart" then some "STARTING"
  else if event = "UserPromptSubmit" then some "THINKING"
  else if event = "PreToolUse" then some "EXECUTING"
  else if event = "PermissionRequest" then some "PERMISSION"
  else if event = "PostToolUse" then some "THINKING"
  else if event = "Stop" then some "WAITING"
  else if event = "SessionEnd" then some "ENDED"
  else none

/-- The status classification of handle_hook: the event map, the
`_USER_INPUT_TOOLS` PreToolUse override, and the Notification override
(`permission_prompt` maps to PERMISSION, any other Notification to none). -/
def proposed_status (data : HookData) : Option String :=
  let event := data.hook_event_name
  let ns := EVENT_STATE_MAP event
  let ns :=
    if event = "PreToolUse" ∧ (data.tool_name = some "ExitPlanMode" ∨ data.tool_name = some "AskUserQuestion")
    then some "PERMISSION" else ns
  if event = "Notification" then
    if data.notification_type = "permission_prompt" then some "PERMISSION" else none
  else ns

/-- The in-memory regression guard of handle_hook (its two early returns on
a proposed PERMISSION status). -/
def regression_guard_suppresses (existing_status : String) (new_status : Option String) (event : String) : Bool :=
  if new_status = some "PERMISSION" then
    if existing_status = "WAITING" then true
    else if event = "Notification" ∧ (existing_status = "THINKING" ∨ existing_status = "EXECUTING" ∨ existing_status = "WAITING") then true
    else false
  else false

/-- The subagent-list update of `_handle_subagent`: SubagentStart appends
unless the agent_id is already present; SubagentStop removes by agent_id. -/
def subagent_merge (event agent_id agent_type now : String) (subagents : List SubagentState) : List SubagentState :=
  if event = "SubagentStart" then
    if subagents.any (fun sa => sa.agent_id == agent_id) then subagents
    else subagents ++ [{ agent_id := agent_id, agent_type := agent_type, status := "running", last_updated := now }]
  else if event = "SubagentStop" then
    subagents.filter (fun sa => sa.agent_id != agent_id)
  else subagents

/-- `write_session` from state.py over the per-session disk slot: skip the
write when the on-disk `last_updated` is strictly greater (Python string
comparison) than the incoming record's, else replace atomically. -/
def write_session (disk : Option SessionState) (state : SessionState) : Option SessionState :=
  match disk with
  | some existing => if strLt state.last_updated existing.last_updated then disk else some state
  | none => some state

/-- `_handle_subagent` from hook.py: drop the notification when no record
exists; otherwise merge the subagent list, refresh `last_updated`, apply
the SubagentStart PERMISSION-to-THINKING override, and write. -/
def handle_subagent (event : String) (data : HookData) (now : String) (disk : Option SessionState) : Option SessionState :=
  match disk with
  | none => none
  | some existing =>
    let subagents := subagent_merge event data.agent_id data.agent_type now existing.subagents
    let status :=
      if event = "SubagentStart" ∧ existing.status = "PERMISSION" then "THINKING"
      else existing.status
    write_session disk { existing with status := status, last_updated := now, subagents := subagents }

/-- The record handle_hook assembles in its tail (after the dispatch and
guard early-returns) from the notification and the existing on-disk
record, field for field as in hook.py. -/
def build_state (hasGit : List String → Bool) (fs : String → Option (List TranscriptLine))
    (now : String) (data : HookData) (disk : Option SessionState) : SessionState :=
  let event := data.hook_event_name
  let new_status := proposed_status data
  let existing_status := (disk.map (fun ex => ex.status)).getD "STARTING"
  let existing_started := (disk.map (fun ex => ex.started_at)).getD now
  let existing_model := (disk.map (fun ex => ex.model)).getD ""
  let existing_topic := (disk.map (fun ex => ex.topic)).getD ""
  let existing_prompt := (disk.map (fun ex => ex.last_prompt)).getD ""
  let existing_tool_count := (disk.map (fun ex => ex.tool_count)).getD 0
  let existing_subagents := (disk.map (fun ex => ex.subagents)).getD []
  let tool_name : Option String :=
    if event = "PreToolUse" ∨ event = "PermissionRequest" then data.tool_name else none
  let model := if event = "SessionStart" then data.model else existing_model
  let last_prompt := if event = "UserPromptSubmit" then data.prompt else existing_prompt
  let topic :=
    if event = "UserPromptSubmit" ∧ data.prompt ≠ "" then
      let cleaned := clean_prompt data.prompt
      if cleaned ≠ "" then cleaned else existing_topic
    else if existing_topic = "" then read_topic_from_transcript fs data.transcript_path
    else existing_topic
  let tool_count := if event = "PostToolUse" then existing_tool_count + 1 else existing_tool_count
  let subagents := if event = "Stop" then [] else existing_subagents
  { session_id := data.session_id
    cwd := data.cwd
    project := project_name hasGit data.cwd
    status := new_status.getD existing_status
    tool_name := tool_name
    permission_mode := data.permission_mode
    model := model
    topic := topic
    last_prompt := last_prompt
    tool_count := tool_count
    started_at := existing_started
    last_updated := now
    subagents := subagents }

/-- `handle_hook` from hook.py, over the single-session disk slot.
`hasGit` and `fs` model the filesystem probes, `now` the `_now_iso()`
timestamp of this invocation.  Returns the new disk contents. -/
def handle_hook (hasGit : List String → Bool) (fs : String → Option (List TranscriptLine))
    (now : String) (data : HookData) (disk : Option SessionState) : Option SessionState :=
  if data.session_id = "" then disk
  else
    let event := data.hook_event_name
    if event = "SessionEnd" then none
    else if event = "SubagentStart" ∨ event = "SubagentStop" then
      handle_subagent event data now disk
    else
      let new_status := proposed_status data
      if new_status = none ∧ event ≠ "Notification" then disk
      else
        let existing_status := (disk.map (fun ex => ex.status)).getD "STARTING"
        if regression_guard_suppresses existing_status new_status event then disk
        else write_session disk (build_state hasGit fs now data disk)

/-- ZOMBIE_THRESHOLD_HOURS from state.py. -/
def ZOMBIE_THRESHOLD_HOURS : Int := 24

/-- Epoch seconds of `datetime.min.replace(tzinfo=timezone.utc)`,
0001-01-01T00:00:00+00:00. -/
def dtMin : Int := -62135596800

/-- `SessionState.last_updated_dt` from state.py: parse the stored
timestamp, falling back to the minimum datetime on failure. -/
def last_updated_dt (parse : String → Option Int) (s : String) : Int :=
  match parse s with
  | some t => t
  | none => dtMin

/-- `SessionState.is_active` from state.py. -/
def is_active (s : SessionState) : Bool := s.status != "ENDED"

/-- The zombie test of `get_sessions`: age strictly above the threshold.
`(now - last).total_seconds() / 3600 > 24` is, over the reals, exactly
`now - last > 24 * 3600` seconds. -/
def is_zombie (parse : String → Option Int) (now : Int) (s : SessionState) : Bool :=
  decide (ZOMBIE_THRESHOLD_HOURS * 3600 < now - last_updated_dt parse s.last_updated)

/-- Comparator of the first (dead, superseded) sort pass of `get_sessions`:
ascending by the tuple (not is_active, last_updated string). -/
def sort_le1 (a b : SessionState) : Bool :=
  if is_active a = is_active b then !(strLt b.last_updated a.last_updated)
  else is_active a

/-- Comparator of the second (authoritative) sort pass of `get_sessions`:
ascending by the tuple (not is_active, negated parsed timestamp). -/
def sort_le2 (parse : String → Option Int) (a b : SessionState) : Bool :=
  if is_active a = is_active b then
    decide (last_updated_dt parse b.last_updated ≤ last_updated_dt parse a.last_updated)
  else is_active a

/-- Stable insertion: place `a` before the first element not strictly
below it, so elements equal under `le` keep their original order
(extensionally the stable sort Python's `list.sort` performs). -/
def stable_insert (le : SessionState → SessionState → Bool) (a : SessionState) : List SessionState → List SessionState
  | [] => [a]
  | b :: bs => if le a b then a :: b :: bs else b :: stable_insert le a bs

/-- Stable sort by a total-preorder comparator. -/
def stable_sort (le : SessionState → SessionState → Bool) : List SessionState → List SessionState
  | [] => []
  | x :: xs => stable_insert le x (stable_sort le xs)

/-- `get_sessions` from state.py over the list of readable on-disk records:
drop (unlink) zombies, then apply the two sequential stable sort passes.
Returns (the list returned to the caller, the records left on disk). -/
def get_sessions (parse : String → Option Int) (now : Int) (disk : List SessionState) :
    List SessionState × List SessionState :=
  let survivors := disk.filter (fun s => !(is_zombie parse now s))
  (stable_sort (sort_le2 parse) (stable_sort sort_le1 survivors), survivors)

/-! ### Helper lemmas -/

theorem strLtb_irrefl (l : List Char) : strLtb l l = false := by
  induction l with
  | nil => rfl
  | cons c cs ih => simp [strLtb, ih]

theorem strLt_irrefl (s : String) : strLt s s = false := strLtb_irrefl s.data

theorem strLtb_trans_false : ∀ a b c : List Char,
    strLtb b a = false → strLtb c b = false → strLtb c a = false := by
  intro a
  induction a with
  | nil => intro b c h1 h2; cases c <;> rfl
  | cons x xs ih =>
    intro b c h1 h2
    cases b with
    | nil => simp [strLtb] at h1
    | cons y ys =>
      cases c with
      | nil => simp [strLtb] at h2
      | cons z zs =>
        simp only [strLtb] at h1 h2 ⊢
        split_ifs at h1 h2 ⊢ <;> first
          | rfl
          | omega
          | (exact ih ys zs h1 h2)

theorem strLt_trans_false {a b c : String}
    (h1 : strLt b a = false) (h2 : strLt c b = false) : strLt c a = false :=
  strLtb_trans_false a.data b.data c.data h1 h2

/-- The anti-regression skip of write_session: a strictly older incoming
record leaves the disk unchanged. -/
theorem write_session_skip (r s : SessionState)
    (h : strLt s.last_updated r.last_updated = true) :
    write_session (some r) s = some r := by
  simp [write_session, h]

/-- One write_session step over an existing record always yields a record
whose `last_updated` has not decreased. -/
theorem write_session_step (r s : SessionState) :
    ∃ r', write_session (some r) s = some r' ∧ strLt r'.last_updated r.last_updated = false := by
  simp only [write_session]
  split_ifs with h
  · exact ⟨r, rfl, strLt_irrefl _⟩
  · exact ⟨s, rfl, by simpa using h⟩

theorem write_session_isSome (d : Option SessionState) (s : SessionState) :
    ∃ r', write_session d s = some r' := by
  cases d with
  | none => exact ⟨s, rfl⟩
  | some r =>
    rcases write_session_step r s with ⟨r', h, _⟩
    exact ⟨r', h⟩

/-- Any event other than SessionEnd, arriving with a timestamp strictly
below the persisted `last_updated`, leaves the disk unchanged: every code
path either returns early or funnels into write_session with
`last_updated = now`, where the anti-regression check skips it. -/
theorem handle_hook_stale (hg : List String → Bool) (fs : String → Option (List TranscriptLine))
    (now : String) (data : HookData) (r : SessionState)
    (hend : data.hook_event_name ≠ "SessionEnd")
    (hlt : strLt now r.last_updated = true) :
    handle_hook hg fs now data (some r) = some r := by
  unfold handle_hook
  by_cases hsid : data.session_id = ""
  · simp [hsid]
  · simp only [hsid, if_false, hend]
    by_cases hsa : data.hook_event_name = "SubagentStart" ∨ data.hook_event_name = "SubagentStop"
    · simp only [if_neg hend, if_pos hsa]
      unfold handle_subagent
      exact write_session_skip r _ hlt
    · simp only [if_neg hend, if_neg hsa]
      by_cases hnoop : proposed_status data = none ∧ data.hook_event_name ≠ "Notification"
      · simp only [if_pos hnoop]
      · simp only [if_neg hnoop]
        by_cases hguard : regression_guard_suppresses
            ((Option.map (fun ex => ex.status) (some r)).getD "STARTING")
            (proposed_status data) data.hook_event_name = true
        · simp only [hguard, if_true]
        · simp only [hguard, if_false]
          exact write_session_skip r _ hlt

/-- When no early return fires (nonempty session id, not SessionEnd, not a
subagent event, not a no-op, guard passes) and the timestamp is not stale,
handle_hook persists exactly the record build_state assembles. -/
theorem handle_hook_accepts (hg : List String → Bool) (fs : String → Option (List TranscriptLine))
    (now : String) (data : HookData) (ex : SessionState)
    (hsid : data.session_id ≠ "")
    (hend : data.hook_event_name ≠ "SessionEnd")
    (hsa : data.hook_event_name ≠ "SubagentStart")
    (hsb : data.hook_event_name ≠ "SubagentStop")
    (hok : ¬(proposed_status data = none ∧ data.hook_event_name ≠ "Notification"))
    (hguard : regression_guard_suppresses ex.status (proposed_status data) data.hook_event_name = false)
    (hskip : strLt now ex.last_updated = false) :
    handle_hook hg fs now data (some ex) = some (build_state hg fs now data (some ex)) := by
  have hlu : (build_state hg fs now data (some ex)).last_updated = now := rfl
  simp only [handle_hook, if_neg hsid, if_neg hend]
  rw [if_neg (by simp [hsa, hsb])]
  simp only [if_neg hok, Option.map_some', Option.getD_some, hguard, Bool.false_eq_true,
    if_false, write_session, hlu, hskip]

/-- write_session over an existing record yields either the old record
(skip) or the incoming one. -/
theorem write_session_result (r s x : SessionState)
    (h : write_session (some r) s = some x) : x = r ∨ x = s := by
  simp only [write_session] at h
  split_ifs at h <;> simp_all

theorem mem_stable_insert (le : SessionState → SessionState → Bool) (a x : SessionState) :
    ∀ l : List SessionState, x ∈ stable_insert le a l ↔ x = a ∨ x ∈ l := by
  intro l
  induction l with
  | nil => simp [stable_insert]
  | cons b bs ih =>
    simp only [stable_insert]
    split_ifs with h
    · simp [List.mem_cons]
    · simp only [List.mem_cons, ih]
      tauto

theorem mem_stable_sort (le : SessionState → SessionState → Bool) (x : SessionState) :
    ∀ l : List SessionState, x ∈ stable_sort le l ↔ x ∈ l := by
  intro l
  induction l with
  | nil => simp [stable_sort]
  | cons b bs ih =>
    simp only [stable_sort, mem_stable_insert, ih, List.mem_cons]

/-- Membership in what `get_sessions` returns: exactly the non-zombie
records. -/
theorem mem_get_sessions_fst (parse : String → Option Int) (now : Int)
    (disk : List SessionState) (s : SessionState) :
    s ∈ (get_sessions parse now disk).1 ↔ s ∈ disk ∧ is_zombie parse now s = false := by
  simp only [get_sessions, mem_stable_sort, List.mem_filter, Bool.not_eq_true']

/-- Membership in what `get_sessions` leaves on disk: exactly the
non-zombie records. -/
theorem mem_get_sessions_snd (parse : String → Option Int) (now : Int)
    (disk : List SessionState) (s : SessionState) :
    s ∈ (get_sessions parse now disk).2 ↔ s ∈ disk ∧ is_zombie parse now s = false := by
  simp only [get_sessions, List.mem_filter, Bool.not_eq_true']

/-! ### Claim theorems -/

/-- Claim C1, counterexample: the claim fails as stated.  A SessionEnd
notification N2 with a timestamp older than N1's bypasses the
anti-regression check (handle_hook calls remove_session unconditionally),
so processing N1 = SessionStart at t1 = "2" and then N2 = SessionEnd at
t2 = "1" deletes the record instead of leaving the record produced by N1
alone. -/
theorem C1_counterexample :
    strLt "1" "2" = true ∧
    handle_hook (fun _ => false) (fun _ => none) "1"
        { session_id := "s", hook_event_name := "SessionEnd" }
        (handle_hook (fun _ => false) (fun _ => none) "2"
          { session_id := "s", hook_event_name := "SessionStart" } none)
      ≠ handle_hook (fun _ => false) (fun _ => none) "2"
          { session_id := "s", hook_event_name := "SessionStart" } none := by
  decide

/-- Claim C1, amended: for notifications N1 at t1 and N2 at t2 < t1 for the
same session, processed N1 then N2, the persisted record after both equals
the record produced by N1 alone, provided N2 is not a session-end
notification (which deletes unconditionally) and N1's processing actually
persisted a record carrying timestamp t1. -/
theorem C1_anti_regression_amended (hg : List String → Bool)
    (fs : String → Option (List TranscriptLine)) (n1 n2 : HookData)
    (t1 t2 : String) (d0 : Option SessionState) (r : SessionState)
    (h1 : handle_hook hg fs t1 n1 d0 = some r)
    (hts : r.last_updated = t1)
    (hlt : strLt t2 t1 = true)
    (hend : n2.hook_event_name ≠ "SessionEnd") :
    handle_hook hg fs t2 n2 (handle_hook hg fs t1 n1 d0) = handle_hook hg fs t1 n1 d0 := by
  rw [h1]
  exact handle_hook_stale hg fs t2 n2 r hend (by rw [hts]; exact hlt)

/-- Claim C1, witness: SessionStart at "2" then Stop at "1"; the stale Stop
is skipped entirely. -/
theorem C1_witness :
    handle_hook (fun _ => false) (fun _ => none) "1"
        { session_id := "s", hook_event_name := "Stop" }
        (handle_hook (fun _ => false) (fun _ => none) "2"
          { session_id := "s", hook_event_name := "SessionStart" } none)
      = handle_hook (fun _ => false) (fun _ => none) "2"
          { session_id := "s", hook_event_name := "SessionStart" } none :=
  C1_anti_regression_amended (fun _ => false) (fun _ => none)
    { session_id := "s", hook_event_name := "SessionStart" }
    { session_id := "s", hook_event_name := "Stop" }
    "2" "1" none
    { session_id := "s", started_at := "2", last_updated := "2" }
    (by decide) (by decide) (by decide) (by decide)

/-- Claim C2: write_session re-reads the disk and skips the write entirely
whenever the on-disk `last_updated` is strictly greater than the incoming
record's; consequently, across any sequence of save operations starting
from a persisted record, the persisted `last_updated` never decreases. -/
theorem C2_save_monotonic :
    (∀ r s : SessionState, strLt s.last_updated r.last_updated = true →
      write_session (some r) s = some r) ∧
    (∀ (l : List SessionState) (r0 r1 : SessionState),
      List.foldl write_session (some r0) l = some r1 →
      strLt r1.last_updated r0.last_updated = false) := by
  constructor
  · exact write_session_skip
  · intro l
    induction l with
    | nil =>
      intro r0 r1 h
      simp only [List.foldl_nil, Option.some.injEq] at h
      rw [← h]
      exact strLt_irrefl _
    | cons s ss ih =>
      intro r0 r1 h
      simp only [List.foldl_cons] at h
      rcases write_session_step r0 s with ⟨r', hw, hge⟩
      rw [hw] at h
      exact strLt_trans_false hge (ih r' r1 h)

/-- Claim C2, witness: an older record ("1") does not clobber a newer one
("2"), and over the sequence ["2" then "3"] the final timestamp "3" has
not decreased below the initial "2". -/
theorem C2_witness :
    write_session (some { session_id := "s", last_updated := "2" })
        { session_id := "s", last_updated := "1" }
      = some { session_id := "s", last_updated := "2" } ∧
    strLt (SessionState.last_updated { session_id := "s", last_updated := "3" })
      (SessionState.last_updated { session_id := "s", last_updated := "2" }) = false :=
  ⟨C2_save_monotonic.1 { session_id := "s", last_updated := "2" }
      { session_id := "s", last_updated := "1" } (by decide),
   C2_save_monotonic.2 [{ session_id := "s", last_updated := "3" }]
      { session_id := "s", last_updated := "2" }
      { session_id := "s", last_updated := "3" } (by decide)⟩

/-- Claim C3: the regression guard suppresses a proposed PERMISSION
transition when the existing status is WAITING; additionally suppresses a
PERMISSION transition originating from a generic Notification when the
existing status is THINKING, EXECUTING, or WAITING; and never suppresses
a transition whose proposed status is not PERMISSION. -/
theorem C3_guard_characterization :
    (∀ event : String,
      regression_guard_suppresses "WAITING" (some "PERMISSION") event = true) ∧
    (∀ existing_status : String,
      existing_status = "THINKING" ∨ existing_status = "EXECUTING" ∨ existing_status = "WAITING" →
      regression_guard_suppresses existing_status (some "PERMISSION") "Notification" = true) ∧
    (∀ (existing_status : String) (new_status : Option String) (event : String),
      new_status ≠ some "PERMISSION" →
      regression_guard_suppresses existing_status new_status event = false) := by
  refine ⟨?_, ?_, ?_⟩
  · intro event
    simp [regression_guard_suppresses]
  · intro existing_status h
    rcases h with h | h | h <;> subst h <;> simp [regression_guard_suppresses]
  · intro existing_status new_status event h
    simp [regression_guard_suppresses, h]

/-- Claim C3, witness: concrete instances of all three guard behaviours. -/
theorem C3_witness :
    regression_guard_suppresses "WAITING" (some "PERMISSION") "PermissionRequest" = true ∧
    regression_guard_suppresses "EXECUTING" (some "PERMISSION") "Notification" = true ∧
    regression_guard_suppresses "WAITING" (some "WAITING") "Stop" = false :=
  ⟨C3_guard_characterization.1 "PermissionRequest",
   C3_guard_characterization.2.1 "EXECUTING" (Or.inr (Or.inl rfl)),
   C3_guard_characterization.2.2 "WAITING" (some "WAITING") "Stop" (by decide)⟩

/-- Claim C4, counterexample: a generic Notification (no permission prompt,
no field payload) is NOT a no-op: handle_hook falls through, builds a fresh
record over the existing one and writes it, refreshing `last_updated` — the
on-disk record changes. -/
theorem C4_counterexample :
    handle_hook (fun _ => false) (fun _ => none) "2"
        { session_id := "s", hook_event_name := "Notification", notification_type := "tick" }
        (some { session_id := "s", status := "WAITING", last_updated := "1" })
      ≠ some { session_id := "s", status := "WAITING", last_updated := "1" } := by
  decide

/-- Claim C4, amended: only a notification whose event kind has no status
mapping and is none of the specially-dispatched kinds (Notification,
SubagentStart, SubagentStop) is a no-op; a generic non-permission
Notification instead performs a write that preserves the status and all
derived fields but refreshes `cwd`, `project`, `permission_mode` and
`last_updated` from the notification. -/
theorem C4_noop_amended :
    (∀ (hg : List String → Bool) (fs : String → Option (List TranscriptLine))
        (now : String) (data : HookData) (disk : Option SessionState),
      EVENT_STATE_MAP data.hook_event_name = none →
      data.hook_event_name ≠ "Notification" →
      data.hook_event_name ≠ "SubagentStart" →
      data.hook_event_name ≠ "SubagentStop" →
      handle_hook hg fs now data disk = disk) ∧
    (∀ (hg : List String → Bool) (fs : String → Option (List TranscriptLine))
        (now : String) (data : HookData) (ex : SessionState),
      data.session_id ≠ "" →
      data.hook_event_name = "Notification" →
      data.notification_type ≠ "permission_prompt" →
      strLt now ex.last_updated = false →
      handle_hook hg fs now data (some ex) = some
        { session_id := data.session_id
          cwd := data.cwd
          project := project_name hg data.cwd
          status := ex.status
          tool_name := none
          permission_mode := data.permission_mode
          model := ex.model
          topic := if ex.topic = "" then read_topic_from_transcript fs data.transcript_path else ex.topic
          last_prompt := ex.last_prompt
          tool_count := ex.tool_count
          started_at := ex.started_at
          last_updated := now
          subagents := ex.subagents }) := by
  constructor
  · intro hg fs now data disk hmap hnote hsa hsb
    have hend : data.hook_event_name ≠ "SessionEnd" := by
      intro h; rw [h] at hmap; simp [EVENT_STATE_MAP] at hmap
    have hpre : data.hook_event_name ≠ "PreToolUse" := by
      intro h; rw [h] at hmap; simp [EVENT_STATE_MAP] at hmap
    have hprop : proposed_status data = none := by
      simp only [proposed_status]
      rw [if_neg hnote, if_neg (fun hc => hpre hc.1)]
      exact hmap
    by_cases hsid : data.session_id = ""
    · simp [handle_hook, hsid]
    · simp [handle_hook, hsid, hend, hsa, hsb, hprop, hnote]
  · intro hg fs now data ex hsid hev hnt hskip
    have hprop : proposed_status data = none := by
      simp [proposed_status, hev, hnt]
    simp [handle_hook, build_state, hsid, hev, hnt, hprop, regression_guard_suppresses,
      write_session, hskip]

/-- Claim C4, witness: an unknown event kind leaves the disk untouched. -/
theorem C4_witness :
    handle_hook (fun _ => false) (fun _ => none) "2"
        { session_id := "s", hook_event_name := "BogusEvent" }
        (some { session_id := "s", last_updated := "1" })
      = some { session_id := "s", last_updated := "1" } :=
  C4_noop_amended.1 (fun _ => false) (fun _ => none) "2"
    { session_id := "s", hook_event_name := "BogusEvent" }
    (some { session_id := "s", last_updated := "1" })
    (by decide) (by decide) (by decide) (by decide)

/-- Claim C5: applying the same subagent-start notification twice yields
the same subagent list as applying it once, and the merge preserves
freedom from duplicate `agent_id` entries. -/
theorem C5_subagent_start_idempotent :
    (∀ (l : List SubagentState) (aid aty n m : String),
      subagent_merge "SubagentStart" aid aty m (subagent_merge "SubagentStart" aid aty n l)
        = subagent_merge "SubagentStart" aid aty n l) ∧
    (∀ (event aid aty n : String) (l : List SubagentState),
      (l.map (fun sa => sa.agent_id)).Nodup →
      ((subagent_merge event aid aty n l).map (fun sa => sa.agent_id)).Nodup) := by
  constructor
  · intro l aid aty n m
    by_cases hany : l.any (fun sa => sa.agent_id == aid) = true
    · simp [subagent_merge, hany]
    · simp [subagent_merge, hany, List.any_append]
  · intro event aid aty n l h
    simp only [subagent_merge]
    split_ifs with h1 h2 h3
    · exact h
    · have hmem : aid ∉ l.map (fun sa => sa.agent_id) := by
        intro hm
        rcases List.mem_map.mp hm with ⟨sa, hsa, heq⟩
        have : l.any (fun sa => sa.agent_id == aid) = true :=
          List.any_eq_true.mpr ⟨sa, hsa, by simp [heq]⟩
        exact h2 this
      simp only [List.map_append, List.map_cons, List.map_nil]
      rw [List.nodup_append]
      exact ⟨h, List.nodup_singleton _, by simpa using hmem⟩
    · exact List.Nodup.sublist ((List.filter_sublist l).map (fun sa => sa.agent_id)) h
    · exact h

/-- Claim C5, witness: starting agent "a" twice over the empty list gives
the same list as once, and a merge into a duplicate-free list stays
duplicate-free. -/
theorem C5_witness :
    subagent_merge "SubagentStart" "a" "T" "2" (subagent_merge "SubagentStart" "a" "T" "1" [])
      = subagent_merge "SubagentStart" "a" "T" "1" [] ∧
    ((subagent_merge "SubagentStart" "a" "T" "1" [{ agent_id := "b" }]).map
      (fun sa => sa.agent_id)).Nodup :=
  ⟨C5_subagent_start_idempotent.1 [] "a" "T" "1" "2",
   C5_subagent_start_idempotent.2 "SubagentStart" "a" "T" "1" [{ agent_id := "b" }] (by decide)⟩

/-- Claim C6, counterexample: a prompt-submission whose prompt cleans to
empty, on a record with no topic, leaves the topic empty WITHOUT attempting
the transcript backfill (the backfill sits on the elif branch), even though
the transcript is present and would yield "hello". -/
theorem C6_counterexample :
    clean_prompt "<system-reminder>x</system-reminder>" = "" ∧
    read_topic_from_transcript
      (fun p => if p = "tp" then some [TranscriptLine.entry "user" (some "hello")] else none)
      "tp" = "hello" ∧
    (handle_hook (fun _ => false)
        (fun p => if p = "tp" then some [TranscriptLine.entry "user" (some "hello")] else none)
        "2"
        { session_id := "s", hook_event_name := "UserPromptSubmit",
          prompt := "<system-reminder>x</system-reminder>", transcript_path := "tp" }
        (some { session_id := "s", last_updated := "1" })).map (fun st => st.topic)
      = some "" := by
  decide

/-- Claim C6, amended: on a prompt-submission the topic is the cleaned
prompt, the previous topic being retained when cleaning yields empty; the
transcript backfill runs only when the notification is NOT a
prompt-submission carrying a nonempty prompt (for other accepted events,
an empty topic is backfilled from the transcript); a missing or unreadable
transcript silently yields an empty topic. -/
theorem C6_topic_amended :
    (∀ (hg : List String → Bool) (fs : String → Option (List TranscriptLine))
        (now : String) (data : HookData) (ex : SessionState),
      data.session_id ≠ "" →
      data.hook_event_name = "UserPromptSubmit" →
      strLt now ex.last_updated = false →
      (handle_hook hg fs now data (some ex)).map (fun st => st.topic)
        = some (if data.prompt ≠ "" then
            (if clean_prompt data.prompt ≠ "" then clean_prompt data.prompt else ex.topic)
          else if ex.topic = "" then read_topic_from_transcript fs data.transcript_path
          else ex.topic)) ∧
    (∀ (hg : List String → Bool) (fs : String → Option (List TranscriptLine))
        (now : String) (data : HookData) (ex : SessionState),
      data.session_id ≠ "" →
      data.hook_event_name = "Stop" →
      strLt now ex.last_updated = false →
      (handle_hook hg fs now data (some ex)).map (fun st => st.topic)
        = some (if ex.topic = "" then read_topic_from_transcript fs data.transcript_path
          else ex.topic)) ∧
    (∀ (fs : String → Option (List TranscriptLine)) (path : String),
      fs path = none → read_topic_from_transcript fs path = "") := by
  refine ⟨?_, ?_, ?_⟩
  · intro hg fs now data ex hsid hev hskip
    have hprop : proposed_status data = some "THINKING" := by
      simp [proposed_status, EVENT_STATE_MAP, hev]
    rw [handle_hook_accepts hg fs now data ex hsid
      (by rw [hev]; decide) (by rw [hev]; decide) (by rw [hev]; decide)
      (by simp [hprop]) (by simp [regression_guard_suppresses, hprop]) hskip]
    simp [build_state, hev]
  · intro hg fs now data ex hsid hev hskip
    have hprop : proposed_status data = some "WAITING" := by
      simp [proposed_status, EVENT_STATE_MAP, hev]
    rw [handle_hook_accepts hg fs now data ex hsid
      (by rw [hev]; decide) (by rw [hev]; decide) (by rw [hev]; decide)
      (by simp [hprop]) (by simp [regression_guard_suppresses, hprop]) hskip]
    simp [build_state, hev]
  · intro fs path hfs
    simp [read_topic_from_transcript, hfs]

/-- Claim C6, witness: a prompt-submission with a cleanable nonempty prompt
sets the topic to the cleaned text; a missing transcript backfills empty. -/
theorem C6_witness :
    (handle_hook (fun _ => false) (fun _ => none) "2"
        { session_id := "s", hook_event_name := "UserPromptSubmit", prompt := " hi " }
        (some { session_id := "s", topic := "old", last_updated := "1" })).map (fun st => st.topic)
      = some (if (" hi " : String) ≠ "" then
          (if clean_prompt " hi " ≠ "" then clean_prompt " hi "
           else SessionState.topic { session_id := "s", topic := "old", last_updated := "1" })
        else if SessionState.topic { session_id := "s", topic := "old", last_updated := "1" } = ""
          then read_topic_from_transcript (fun _ => none) ""
        else SessionState.topic { session_id := "s", topic := "old", last_updated := "1" }) ∧
    read_topic_from_transcript (fun _ => none) "whatever" = "" :=
  ⟨C6_topic_amended.1 (fun _ => false) (fun _ => none) "2"
      { session_id := "s", hook_event_name := "UserPromptSubmit", prompt := " hi " }
      { session_id := "s", topic := "old", last_updated := "1" }
      (by decide) rfl (by decide),
   C6_topic_amended.2.2 (fun _ => none) "whatever" rfl⟩

/-- Claim C7, counterexample: `project` is NOT derived once — a later
accepted notification carrying an empty `cwd` replaces project "p" by "".
The first notification has cwd "/r/p" whose directory holds a
version-control marker; the Stop notification carries no cwd. -/
theorem C7_counterexample :
    ((handle_hook (fun d => decide (d = ["r", "p"])) (fun _ => none) "1"
        { session_id := "s", hook_event_name := "SessionStart", cwd := "/r/p" } none).map
      (fun st => st.project) = some "p") ∧
    ((handle_hook (fun d => decide (d = ["r", "p"])) (fun _ => none) "2"
        { session_id := "s", hook_event_name := "Stop", cwd := "" }
        (handle_hook (fun d => decide (d = ["r", "p"])) (fun _ => none) "1"
          { session_id := "s", hook_event_name := "SessionStart", cwd := "/r/p" } none)).map
      (fun st => st.project) = some "") := by
  decide

/-- Claim C7, amended: `project` is recomputed from the current
notification's `cwd` on EVERY accepted non-subagent write (nearest
ancestor with a version-control marker, else last path component), so a
later notification with a different or empty `cwd` does replace it;
whenever processing changes the disk at all (and the event is not
SessionEnd or a subagent event), the persisted record carries
`project = project_name hasGit cwd` and `cwd` from that notification. -/
theorem C7_project_amended :
    ∀ (hg : List String → Bool) (fs : String → Option (List TranscriptLine))
      (now : String) (data : HookData) (disk : Option SessionState),
      data.hook_event_name ≠ "SessionEnd" →
      data.hook_event_name ≠ "SubagentStart" →
      data.hook_event_name ≠ "SubagentStop" →
      handle_hook hg fs now data disk ≠ disk →
      (handle_hook hg fs now data disk).map (fun st => (st.project, st.cwd))
        = some (project_name hg data.cwd, data.cwd) := by
  intro hg fs now data disk hend hsa hsb hne
  by_cases hsid : data.session_id = ""
  · exact absurd (by simp [handle_hook, hsid]) hne
  · by_cases hnoop : proposed_status data = none ∧ data.hook_event_name ≠ "Notification"
    · exact absurd (by simp [handle_hook, hsid, hend, hsa, hsb, hnoop]) hne
    · by_cases hguard : regression_guard_suppresses
          ((disk.map (fun ex => ex.status)).getD "STARTING")
          (proposed_status data) data.hook_event_name = true
      · exact absurd (by simp [handle_hook, hsid, hend, hsa, hsb, hnoop, hguard]) hne
      · have hh : handle_hook hg fs now data disk
            = write_session disk (build_state hg fs now data disk) := by
          simp [handle_hook, hsid, hend, hsa, hsb, hnoop, hguard]
        rw [hh] at hne ⊢
        cases disk with
        | none => simp [write_session, build_state]
        | some ex =>
          simp only [write_session] at hne ⊢
          split_ifs at hne ⊢ with hskip
          · exact absurd rfl hne
          · simp [build_state]

/-- Claim C7, witness: an accepted Stop that changes the disk persists
project and cwd recomputed from the notification. -/
theorem C7_witness :
    (handle_hook (fun _ => false) (fun _ => none) "2"
        { session_id := "s", hook_event_name := "Stop", cwd := "/a/b" }
        (some { session_id := "s", last_updated := "1" })).map (fun st => (st.project, st.cwd))
      = some (project_name (fun _ => false) "/a/b", "/a/b") :=
  C7_project_amended (fun _ => false) (fun _ => none) "2"
    { session_id := "s", hook_event_name := "Stop", cwd := "/a/b" }
    (some { session_id := "s", last_updated := "1" })
    (by decide) (by decide) (by decide) (by decide)

/-- Claim C8: a record whose age exceeds the fixed 24-hour threshold at the
time get_sessions runs is absent from the returned sequence and absent
from disk after the call; records at or under the threshold are returned
(and kept). -/
theorem C8_zombie_reaping :
    ∀ (parse : String → Option Int) (now : Int) (disk : List SessionState) (s : SessionState),
      (s ∈ (get_sessions parse now disk).1 ↔
        s ∈ disk ∧ is_zombie parse now s = false) ∧
      (s ∈ (get_sessions parse now disk).2 ↔
        s ∈ disk ∧ is_zombie parse now s = false) :=
  fun parse now disk s =>
    ⟨mem_get_sessions_fst parse now disk s, mem_get_sessions_snd parse now disk s⟩

/-- Claim C9: a subagent notification over an existing record changes only
the subagent list, the timestamp and — solely for SubagentStart over a
PERMISSION record — the status; all other fields are preserved. -/
theorem C9_subagent_frame :
    ∀ (event : String) (data : HookData) (now : String) (ex : SessionState),
      event = "SubagentStart" ∨ event = "SubagentStop" →
      ((handle_subagent event data now (some ex)).map (fun r =>
          (r.session_id, r.cwd, r.project, r.tool_name, r.permission_mode,
           r.model, r.topic, r.last_prompt, r.tool_count, r.started_at))
        = some (ex.session_id, ex.cwd, ex.project, ex.tool_name, ex.permission_mode,
            ex.model, ex.topic, ex.last_prompt, ex.tool_count, ex.started_at)) ∧
      (∀ r', handle_subagent event data now (some ex) = some r' →
        r'.status = ex.status ∨
          (event = "SubagentStart" ∧ ex.status = "PERMISSION" ∧ r'.status = "THINKING")) := by
  intro event data now ex _
  constructor
  · simp only [handle_subagent, write_session]
    split_ifs <;> simp
  · intro r' hr
    simp only [handle_subagent] at hr
    rcases write_session_result _ _ _ hr with h | h
    · subst h
      exact Or.inl rfl
    · subst h
      by_cases hcond : event = "SubagentStart" ∧ ex.status = "PERMISSION"
      · exact Or.inr ⟨hcond.1, hcond.2, by simp [hcond]⟩
      · exact Or.inl (by simp [hcond])

/-- Claim C9, witness: a SubagentStart over a PERMISSION record preserves
every other field and flips the status to THINKING. -/
theorem C9_witness :
    ((handle_subagent "SubagentStart" { session_id := "s", agent_id := "a" } "2"
        (some { session_id := "s", status := "PERMISSION", topic := "t", last_updated := "1" })).map
      (fun r => (r.session_id, r.cwd, r.project, r.tool_name, r.permission_mode,
          r.model, r.topic, r.last_prompt, r.tool_count, r.started_at))
      = some ("s", "", "", none, "", "", "t", "", 0, "")) ∧
    (SessionState.status { session_id := "s", status := "THINKING", topic := "t",
                           last_updated := "2",
                           subagents := [{ agent_id := "a", agent_type := "",
                                           status := "running", last_updated := "2" }] }
        = SessionState.status { session_id := "s", status := "PERMISSION", topic := "t",
                                last_updated := "1" } ∨
      ("SubagentStart" = "SubagentStart" ∧
        SessionState.status { session_id := "s", status := "PERMISSION", topic := "t",
                              last_updated := "1" } = "PERMISSION" ∧
        SessionState.status { session_id := "s", status := "THINKING", topic := "t",
                              last_updated := "2",
                              subagents := [{ agent_id := "a", agent_type := "",
                                              status := "running", last_updated := "2" }] }
        = "THINKING")) :=
  ⟨(C9_subagent_frame "SubagentStart" { session_id := "s", agent_id := "a" } "2"
      { session_id := "s", status := "PERMISSION", topic := "t", last_updated := "1" }
      (Or.inl rfl)).1,
   (C9_subagent_frame "SubagentStart" { session_id := "s", agent_id := "a" } "2"
      { session_id := "s", status := "PERMISSION", topic := "t", last_updated := "1" }
      (Or.inl rfl)).2
     { session_id := "s", status := "THINKING", topic := "t", last_updated := "2",
       subagents := [{ agent_id := "a", agent_type := "", status := "running", last_updated := "2" }] }
     (by decide)⟩

/-- Claim C10: a persisted record whose `last_updated` fails to parse is
treated as infinitely old (the minimum datetime), hence always a zombie:
deleted from disk and excluded from the result, for any run time at or
after the epoch. -/
theorem C10_unparseable_zombie :
    ∀ (parse : String → Option Int) (now : Int) (disk : List SessionState) (s : SessionState),
      parse s.last_updated = none → 0 ≤ now →
      last_updated_dt parse s.last_updated = dtMin ∧
      is_zombie parse now s = true ∧
      s ∉ (get_sessions parse now disk).1 ∧
      s ∉ (get_sessions parse now disk).2 := by
  intro parse now disk s hp hnow
  have hdt : last_updated_dt parse s.last_updated = dtMin := by
    simp [last_updated_dt, hp]
  have hz : is_zombie parse now s = true := by
    simp only [is_zombie, hdt, dtMin, ZOMBIE_THRESHOLD_HOURS, decide_eq_true_eq]
    omega
  refine ⟨hdt, hz, ?_, ?_⟩
  · intro hmem
    have := ((mem_get_sessions_fst parse now disk s).mp hmem).2
    rw [hz] at this
    exact absurd this (by decide)
  · intro hmem
    have := ((mem_get_sessions_snd parse now disk s).mp hmem).2
    rw [hz] at this
    exact absurd this (by decide)

/-- Claim C10, witness: a record with unparseable timestamp "bogus" is
reaped at epoch time 0. -/
theorem C10_witness :
    last_updated_dt (fun _ => none)
        (SessionState.last_updated { session_id := "s", last_updated := "bogus" }) = dtMin ∧
    is_zombie (fun _ => none) 0 { session_id := "s", last_updated := "bogus" } = true ∧
    { session_id := "s", last_updated := "bogus" }
      ∉ (get_sessions (fun _ => none) 0 [{ session_id := "s", last_updated := "bogus" }]).1 ∧
    { session_id := "s", last_updated := "bogus" }
      ∉ (get_sessions (fun _ => none) 0 [{ session_id := "s", last_updated := "bogus" }]).2 :=
  C10_unparseable_zombie (fun _ => none) 0 [{ session_id := "s", last_updated := "bogus" }]
    { session_id := "s", last_updated := "bogus" } rfl (by decide)

end ClaudeMonitor
